import Mathlib

/-!
Shallow embedding of the freediving buoyancy/energy repository
(`freediving.py` and `diving_lead_optimizer.py`).  All machine floats are
modelled as exact rationals; NumPy array operations are modelled as `List ℚ`
operations with the same indexing behaviour.
-/

namespace Freediving

/-- Lung inflation conditions iterated by the force-profile loop
(`params["lung_volumes"]` keys in `freediving.py`). -/
inductive LungCondition where
  | full_lung
  | medium_lung
  | empty_lung
  deriving DecidableEq

/-- The diver parameter record (the `params` dictionary of `freediving.py`).
The `seawater_density` field models the `"seawater_density"` dictionary key:
it is `none` while the key is absent and `some rho` once
`plot_net_force_kgf` has stored the resolved density into the record. -/
structure Params where
  mass : ℚ
  body_fat_percentage : ℚ
  lung_volumes : LungCondition → ℚ
  residual_volume : ℚ
  wetsuit_mass : ℚ
  wetsuit_density : ℚ
  snorkel_mask_volume : ℚ
  lead_weight : ℚ
  water_type : String
  temperature : ℚ
  wetsuit_compressibility_factor : ℚ
  x_limits : ℚ × ℚ
  y_limits : ℚ × ℚ
  seawater_density : Option ℚ

/-- `calculate_seawater_density` from `freediving.py`: density in g/cm^3
from salinity (ppt) and temperature (°C). -/
def calculate_seawater_density (salinity temperature : ℚ) : ℚ :=
  1.000 + 0.0008 * salinity - 0.0003 * temperature

/-- `get_salinity_and_density` from `freediving.py`: resolves the water type
to a typical salinity and returns the density in kg/m^3. -/
def get_salinity_and_density (water_type : String) (temperature : ℚ) : ℚ :=
  calculate_seawater_density (if water_type = "sea" then 35 else 0) temperature * 1000

/-- `lung_volume_at_depth` computed inside the submerged branch of
`plot_net_force_kgf`: `rv + (lung_volume_cm3 - rv) / (1 + d / 10)`. -/
def lung_volume_at_depth (lung_volume_cm3 rv d : ℚ) : ℚ :=
  rv + (lung_volume_cm3 - rv) / (1 + d / 10)

/-- `total_displacement_volume` from the submerged branch of
`plot_net_force_kgf` (result in m^3; the summands are in cm^3, the lead
volume is first computed in m^3 then scaled by 1e6 into the cm^3 sum). -/
def total_displacement_volume (p : Params) (lung_volume d : ℚ) : ℚ :=
  let volume_fat := p.mass * p.body_fat_percentage * 1000 / 0.9
  let volume_lean := p.mass * (1 - p.body_fat_percentage) * 1000 / 1.1
  let wetsuit_volume_surface := p.wetsuit_mass * 1000 / p.wetsuit_density
  let wetsuit_volume_at_depth :=
    wetsuit_volume_surface * (1 - p.wetsuit_compressibility_factor / 100 * d)
  let weight_volume := p.lead_weight / 11340
  (volume_fat / (1 + d * 0.1 / 100)
    + volume_lean / (1 + d * 0.05 / 100)
    + lung_volume_at_depth (lung_volume * 1000) p.residual_volume d
    + wetsuit_volume_at_depth
    + p.snorkel_mask_volume
    + weight_volume * 1e6) * 1e-6

/-- `F_buoyancy` from `plot_net_force_kgf`: buoyant force in N. -/
def F_buoyancy (p : Params) (rho lung_volume d : ℚ) : ℚ :=
  total_displacement_volume p lung_volume d * rho * 9.81

/-- `F_weight` from `plot_net_force_kgf`: gravitational force in N. -/
def F_weight (p : Params) : ℚ :=
  (p.mass + p.wetsuit_mass + p.lead_weight) * 9.81

/-- The per-depth net force computation of `plot_net_force_kgf`
(`rho` is the value read from `params["seawater_density"]`,
`lung_volume` is the current condition's volume in liters). -/
def net_force_kgf (p : Params) (rho lung_volume d : ℚ) : ℚ :=
  if d < 0 then -p.mass - p.wetsuit_mass
  else (F_buoyancy p rho lung_volume d - F_weight p) / 9.81

/-- `np.linspace a b num`: `num` evenly spaced samples from `a` to `b`. -/
def linspace (a b : ℚ) (num : ℕ) : List ℚ :=
  (List.range num).map fun i : ℕ => a + (b - a) * (i : ℚ) / ((num : ℚ) - 1)

/-- `plot_net_force_kgf` from `freediving.py` with `plot=False`: stores the
resolved seawater density into the parameter record, samples the net force
over `np.linspace(0, params["y_limits"][0], 500)` for each lung condition,
and returns the (mutated) record, the depth grid and the force curves. -/
def plot_net_force_kgf (p : Params) : Params × List ℚ × (LungCondition → List ℚ) :=
  let rho := get_salinity_and_density p.water_type p.temperature
  let p1 := { p with seawater_density := some rho }
  let depths := linspace 0 p.y_limits.1 500
  (p1, depths, fun c => depths.map (net_force_kgf p rho (p.lung_volumes c)))

/-- The example `params` dictionary at the bottom of `freediving.py`
(the `height` entry is context only and carries no physics, so it is not a
field of `Params`). -/
def example_params : Params where
  mass := 70
  body_fat_percentage := 0.20
  lung_volumes := fun c =>
    match c with
    | .full_lung => 6.5
    | .medium_lung => 4.0
    | .empty_lung => 1.5
  residual_volume := 1.5 * 1000
  wetsuit_mass := 1.24
  wetsuit_density := 0.24
  snorkel_mask_volume := 150
  lead_weight := 0.0
  water_type := "sea"
  temperature := 22
  wetsuit_compressibility_factor := 1.6
  x_limits := (-4, 8)
  y_limits := (50, -10)
  seawater_density := none

example : get_salinity_and_density "sea" 22 = 5107 / 5 := by
  norm_num [get_salinity_and_density, calculate_seawater_density]

example : get_salinity_and_density "fresh" 22 = 4967 / 5 := by
  simp only [get_salinity_and_density, calculate_seawater_density]
  rw [if_neg (by decide)]
  norm_num

/-! ### Energy integrator (`energy_use` in `diving_lead_optimizer.py`) -/

/-- Step 2 of `energy_use`: the (depth, force) samples restricted to grid
depths `<= target` (`depths[depth_indices]` paired with
`net_forces[depth_indices]`). -/
def relevant (depths forces : List ℚ) (target : ℚ) : List (ℚ × ℚ) :=
  (depths.zip forces).filter fun q => decide (q.1 ≤ target)

/-- The downward-motion loop of `energy_use`: for `i` in
`range(len(relevant_depths) - 1)`, the work increment uses the force at the
shallower index `i` (converted to Newtons) and is zero unless that force is
positive. -/
def descent_deltas (rel : List (ℚ × ℚ)) : List ℚ :=
  (List.range (rel.length - 1)).map fun i =>
    let force := (rel.getD i (0, 0)).2 * 9.81
    if 0 < force then force * |(rel.getD (i + 1) (0, 0)).1 - (rel.getD i (0, 0)).1|
    else 0

/-- The upward-motion loop of `energy_use`: for `i` in
`range(len(relevant_depths) - 1, 0, -1)` (i.e. `i = j + 1` with `j` running
down `range(len - 1).reverse`), the work increment uses the force at the
deeper index `i` and is zero unless that force is negative. -/
def ascent_deltas (rel : List (ℚ × ℚ)) : List ℚ :=
  ((List.range (rel.length - 1)).reverse).map fun j =>
    let force := (rel.getD (j + 1) (0, 0)).2 * 9.81
    if force < 0 then |force * ((rel.getD (j + 1) (0, 0)).1 - (rel.getD j (0, 0)).1)|
    else 0

/-- `energy_deltas_wh`: all work increments of `energy_use` in traversal
order (descent then ascent), converted from joules to watt-hours. -/
def energy_deltas_wh (rel : List (ℚ × ℚ)) : List ℚ :=
  (descent_deltas rel ++ ascent_deltas rel).map fun x => x / 3600

/-- `cumulative_energy_wh` from `energy_use`:
`np.concatenate([[0], np.cumsum(energy_deltas_wh)])`. -/
def cumulative_energy_wh (rel : List (ℚ × ℚ)) : List ℚ :=
  List.scanl (· + ·) 0 (energy_deltas_wh rel)

/-- `energy_use` from `diving_lead_optimizer.py`, as a function of the force
curve it draws from `plot_net_force_kgf`.  The Python code evaluates
`relevant_depths[0]` unguarded, so an empty restriction raises `IndexError`;
that failure is modelled as `none`.  Otherwise the returned scalar is
`cumulative_energy_wh[-1]`. -/
def energy_use (depths forces : List ℚ) (target : ℚ) : Option ℚ :=
  let rel := relevant depths forces target
  if rel = [] then none
  else some ((cumulative_energy_wh rel).getLastD 0)

/-- Modelled from the spec: the Energy Integrator total as the claim words
it — restrict to grid depths `<= target`; sum, over consecutive pairs, the
descent increments `force_kgf(d_i) * 9.81 * |d_(i+1) - d_i|` taken when
`force_kgf(d_i) > 0`, and the ascent increments
`|force_kgf(d_(i+1)) * 9.81 * (d_(i+1) - d_i)|` taken when the force at the
deeper point is negative; each increment divided by 3600. -/
def energy_use_spec (depths forces : List ℚ) (target : ℚ) : ℚ :=
  let rel := relevant depths forces target
  let d := fun i => (rel.getD i (0, 0)).1
  let f := fun i => (rel.getD i (0, 0)).2
  (∑ i in Finset.range (rel.length - 1),
    (if 0 < f i then f i * 9.81 * |d (i + 1) - d i| else 0) / 3600)
  + ∑ i in Finset.range (rel.length - 1),
    (if f (i + 1) < 0 then |f (i + 1) * 9.81 * (d (i + 1) - d i)| else 0) / 3600

/-! ### Weight optimizer (`energy_vs_weight` in `diving_lead_optimizer.py`) -/

/-- `np.argmin`: index of the first occurrence of the minimum value. -/
def argmin_go : List ℚ → ℕ → ℕ → ℚ → ℕ
  | [], _, best, _ => best
  | x :: xs, i, best, bv =>
      if x < bv then argmin_go xs (i + 1) i x else argmin_go xs (i + 1) best bv

/-- `np.argmin` on a list (0 on the empty list). -/
def argmin : List ℚ → ℕ
  | [] => 0
  | x :: xs => argmin_go xs 1 0 x

/-- Leading coefficient of the quadratic through three points with distinct
abscissae (`np.polyfit(x, y, 2)` is this exact interpolant for three
points). -/
def quad_a (x1 x2 x3 y1 y2 y3 : ℚ) : ℚ :=
  (x3 * (y2 - y1) + x2 * (y1 - y3) + x1 * (y3 - y2)) /
    ((x1 - x2) * (x1 - x3) * (x2 - x3))

/-- Linear coefficient of the interpolating quadratic. -/
def quad_b (x1 x2 x3 y1 y2 y3 : ℚ) : ℚ :=
  (x3 ^ 2 * (y1 - y2) + x2 ^ 2 * (y3 - y1) + x1 ^ 2 * (y2 - y3)) /
    ((x1 - x2) * (x1 - x3) * (x2 - x3))

/-- Constant coefficient of the interpolating quadratic. -/
def quad_c (x1 x2 x3 y1 y2 y3 : ℚ) : ℚ :=
  (x2 * x3 * (x2 - x3) * y1 + x3 * x1 * (x3 - x1) * y2 + x1 * x2 * (x1 - x2) * y3) /
    ((x1 - x2) * (x1 - x3) * (x2 - x3))

/-- The optimum-selection step of `energy_vs_weight` (lines 114-132 of
`diving_lead_optimizer.py`): boundary minima are reported directly; interior
minima are refined through the quadratic fit over the minimum and its two
neighbours, reporting the vertex `-b / (2a)` and `np.polyval` there. -/
def select_optimum (ws es : List ℚ) : ℚ × ℚ :=
  let m := argmin es
  if m = 0 ∨ m = ws.length - 1 then
    (ws.getD m 0, es.getD m 0)
  else
    let x1 := ws.getD (m - 1) 0
    let x2 := ws.getD m 0
    let x3 := ws.getD (m + 1) 0
    let y1 := es.getD (m - 1) 0
    let y2 := es.getD m 0
    let y3 := es.getD (m + 1) 0
    let a := quad_a x1 x2 x3 y1 y2 y3
    let b := quad_b x1 x2 x3 y1 y2 y3
    let c := quad_c x1 x2 x3 y1 y2 y3
    let optimal_weight := -b / (2 * a)
    (optimal_weight, a * optimal_weight ^ 2 + b * optimal_weight + c)

/-- `np.arange a b s` for a positive step: `a + s * i` for
`i < ceil((b - a) / s)`. -/
def arange (a b s : ℚ) : List ℚ :=
  (List.range (Int.ceil ((b - a) / s)).toNat).map fun i : ℕ => a + s * (i : ℚ)

/-- `energy_use` applied to the force curve that
`plot_net_force_kgf(params, plot=False)` produces for one lung condition
(the `none` error branch cannot fire for the grids the optimizer uses, whose
shallowest depth is 0; `getD 0` only totalizes the function). -/
def energy_useD (p : Params) (depth : ℚ) (c : LungCondition) : ℚ :=
  let r := plot_net_force_kgf p
  (energy_use r.2.1 (r.2.2 c) depth).getD 0

/-- `energy_vs_weight` from `diving_lead_optimizer.py` for one lung
condition with the default candidate sweep `np.arange(0, 12, 0.2)`: probe
each candidate lead weight on a private copy of the record and select the
optimum. -/
def energy_vs_weight (p : Params) (depth : ℚ) (c : LungCondition) : ℚ × ℚ :=
  let weights := arange 0 12 0.2
  let energies := weights.map fun w => energy_useD { p with lead_weight := w } depth c
  select_optimum weights energies

/-- The depth grid of `optimal_weight_vs_depth`:
`np.arange(1, max_depth + 1, 0.5)`. -/
def depth_grid (max_depth : ℚ) : List ℚ :=
  arange 1 (max_depth + 1) 0.5

/-- `optimal_weight_vs_depth` from `diving_lead_optimizer.py` for one lung
condition: the optimal weight collected at every depth of the sweep. -/
def optimal_weight_vs_depth (p : Params) (max_depth : ℚ) (c : LungCondition) : List ℚ :=
  (depth_grid max_depth).map fun depth => (energy_vs_weight p depth c).1

/-! ### Claim-side restatement of the submerged force formula -/

/-- Modelled from the spec wording of the Force Model contract: net force
in kgf as `(buoyant force - weight force) / 9.81` with the displaced volume
spelled out as the cm^3 sum of the compressed lung, fat, lean, wetsuit,
snorkel/mask and lead volumes, converted by `1e-6`. -/
def net_force_spec (p : Params) (rho lung_volume d : ℚ) : ℚ :=
  let displaced_cm3 :=
    (p.residual_volume + (lung_volume * 1000 - p.residual_volume) / (1 + d / 10))
    + (p.mass * p.body_fat_percentage * 1000 / 0.9) / (1 + d * 0.1 / 100)
    + (p.mass * (1 - p.body_fat_percentage) * 1000 / 1.1) / (1 + d * 0.05 / 100)
    + (p.wetsuit_mass * 1000 / p.wetsuit_density) * (1 - (p.wetsuit_compressibility_factor / 100) * d)
    + p.snorkel_mask_volume
    + (p.lead_weight / 11340) * 1e6
  let buoyant_force := (displaced_cm3 * 1e-6) * rho * 9.81
  let weight_force := (p.mass + p.wetsuit_mass + p.lead_weight) * 9.81
  (buoyant_force - weight_force) / 9.81

/-! ### Helper lemmas -/

theorem sum_map_range (n : ℕ) (g : ℕ → ℚ) :
    ((List.range n).map g).sum = ∑ i in Finset.range n, g i := rfl

theorem getLastD_scanl_add (l : List ℚ) :
    ∀ a d : ℚ, (List.scanl (· + ·) a l).getLastD d = a + l.sum := by
  induction l with
  | nil => intro a d; simp [List.scanl_nil]
  | cons x xs ih =>
      intro a d
      rw [List.scanl_cons, List.singleton_append, List.getLastD_cons, ih, List.sum_cons]
      ring

theorem head?_scanl_add (l : List ℚ) (a : ℚ) :
    (List.scanl (· + ·) a l).head? = some a := by
  cases l <;> simp [List.scanl_nil, List.scanl_cons]

theorem chain'_scanl_add (l : List ℚ) :
    ∀ a : ℚ, (∀ x ∈ l, 0 ≤ x) → List.Chain' (· ≤ ·) (List.scanl (· + ·) a l) := by
  induction l with
  | nil => intro a _; simp [List.scanl_nil]
  | cons x xs ih =>
      intro a h
      rw [List.scanl_cons, List.singleton_append, List.chain'_cons']
      refine ⟨?_, ih (a + x) fun z hz => h z (List.mem_cons_of_mem x hz)⟩
      intro y hy
      rw [head?_scanl_add] at hy
      obtain rfl : a + x = y := by simpa using hy
      have hx : 0 ≤ x := h x (List.mem_cons_self x xs)
      linarith

theorem energy_deltas_wh_nonneg (rel : List (ℚ × ℚ)) :
    ∀ x ∈ energy_deltas_wh rel, 0 ≤ x := by
  intro x hx
  rw [energy_deltas_wh] at hx
  obtain ⟨y, hy, rfl⟩ := List.mem_map.mp hx
  have hy0 : 0 ≤ y := by
    rcases List.mem_append.mp hy with h | h
    · rw [descent_deltas] at h
      obtain ⟨i, _, rfl⟩ := List.mem_map.mp h
      dsimp only
      split
      · rename_i hpos
        exact mul_nonneg hpos.le (abs_nonneg _)
      · exact le_rfl
    · rw [ascent_deltas] at h
      obtain ⟨i, _, rfl⟩ := List.mem_map.mp h
      dsimp only
      split
      · exact abs_nonneg _
      · exact le_rfl
  positivity

theorem quad_fit_interpolates (x1 x2 x3 y1 y2 y3 : ℚ)
    (h12 : x1 ≠ x2) (h13 : x1 ≠ x3) (h23 : x2 ≠ x3) :
    quad_a x1 x2 x3 y1 y2 y3 * x1 ^ 2 + quad_b x1 x2 x3 y1 y2 y3 * x1
        + quad_c x1 x2 x3 y1 y2 y3 = y1
    ∧ quad_a x1 x2 x3 y1 y2 y3 * x2 ^ 2 + quad_b x1 x2 x3 y1 y2 y3 * x2
        + quad_c x1 x2 x3 y1 y2 y3 = y2
    ∧ quad_a x1 x2 x3 y1 y2 y3 * x3 ^ 2 + quad_b x1 x2 x3 y1 y2 y3 * x3
        + quad_c x1 x2 x3 y1 y2 y3 = y3 := by
  have e12 : x1 - x2 ≠ 0 := sub_ne_zero.mpr h12
  have e13 : x1 - x3 ≠ 0 := sub_ne_zero.mpr h13
  have e23 : x2 - x3 ≠ 0 := sub_ne_zero.mpr h23
  refine ⟨?_, ?_, ?_⟩ <;>
  · simp only [quad_a, quad_b, quad_c]
    field_simp
    ring

/-! ### Claim theorems for the energy integrator -/

/-- C2: for every force curve and target depth (with a nonempty restricted
grid, which is where the source's algorithm is defined), the Energy
Integrator total equals the claim's description: descent increments use the
force at the shallower point and count only positive forces, ascent
increments use the force at the deeper point and count only negative
forces, each increment is divided by 3600, and the returned scalar is the
final value of the cumulative running sum starting at 0. -/
theorem C2_energy_integrator_total (depths forces : List ℚ) (target : ℚ)
    (h : relevant depths forces target ≠ []) :
    energy_use depths forces target = some (energy_use_spec depths forces target) := by
  simp only [energy_use]
  rw [if_neg h]
  congr 1
  simp only [energy_use_spec, cumulative_energy_wh]
  rw [getLastD_scanl_add, zero_add]
  set rel := relevant depths forces target with hrel
  rw [energy_deltas_wh, List.map_append, List.sum_append,
    descent_deltas, ascent_deltas, List.map_map, List.map_map,
    List.map_reverse, List.sum_reverse, sum_map_range, sum_map_range]
  congr 1
  · refine Finset.sum_congr rfl fun i _ => ?_
    dsimp only [Function.comp]
    by_cases hc : 0 < (rel.getD i (0, 0)).2
    · rw [if_pos hc, if_pos (by nlinarith)]
    · rw [if_neg hc, if_neg (by intro hcc; exact hc (by nlinarith))]
  · refine Finset.sum_congr rfl fun i _ => ?_
    dsimp only [Function.comp]
    by_cases hc : (rel.getD (i + 1) (0, 0)).2 < 0
    · rw [if_pos hc, if_pos (by nlinarith)]
    · rw [if_neg hc, if_neg (by intro hcc; exact hc (by nlinarith))]

/-- Witness for C2 at the concrete curve depths `[0, 1]`, forces `[1, -1]`,
target depth `1`. -/
theorem C2_energy_integrator_total_witness :
    energy_use [0, 1] [1, -1] 1 = some (energy_use_spec [0, 1] [1, -1] 1) :=
  C2_energy_integrator_total [0, 1] [1, -1] 1 (by
    have h : relevant [0, 1] [1, -1] 1 = [(0, 1), (1, -1)] := by norm_num [relevant]
    rw [h]
    simp)

/-- C3: the cumulative energy sequence starts at 0 and is non-decreasing at
every step, and any returned total energy is non-negative. -/
theorem C3_energy_nonneg (depths forces : List ℚ) (target : ℚ) :
    (cumulative_energy_wh (relevant depths forces target)).head? = some 0
    ∧ List.Chain' (· ≤ ·) (cumulative_energy_wh (relevant depths forces target))
    ∧ ∀ e : ℚ, energy_use depths forces target = some e → 0 ≤ e := by
  refine ⟨head?_scanl_add _ _, chain'_scanl_add _ 0 (energy_deltas_wh_nonneg _), ?_⟩
  intro e he
  simp only [energy_use] at he
  by_cases hrel : relevant depths forces target = []
  · rw [if_pos hrel] at he
    exact absurd he (by simp)
  · rw [if_neg hrel] at he
    obtain rfl := (Option.some.inj he).symm
    rw [cumulative_energy_wh, getLastD_scanl_add, zero_add]
    exact List.sum_nonneg (energy_deltas_wh_nonneg _)

/-- Witness for C3: the inner implication instantiated at the curve
depths `[0, 1]`, forces `[1, 1]`, target `1`, whose total is
`9.81 / 3600 = 109 / 40000` watt-hours. -/
theorem C3_energy_nonneg_witness : 0 ≤ (109 / 40000 : ℚ) :=
  (C3_energy_nonneg [0, 1] [1, 1] 1).2.2 (109 / 40000) (by
    have h : relevant [0, 1] [1, 1] 1 = [(0, 1), (1, 1)] := by norm_num [relevant]
    rw [energy_use]
    rw [h, if_neg (by simp)]
    norm_num [cumulative_energy_wh, energy_deltas_wh, descent_deltas, ascent_deltas,
      List.scanl])

/-- C5: a target depth below every grid depth leaves the restriction empty,
and the source then evaluates `relevant_depths[0]` on an empty array, an
`IndexError` (modelled as `none`) — not the zero-energy return the claim
describes. -/
theorem C5_empty_range_fails (depths forces : List ℚ) (target : ℚ)
    (h : ∀ d ∈ depths, target < d) :
    energy_use depths forces target = none := by
  have hrel : relevant depths forces target = [] := by
    rw [relevant, List.filter_eq_nil_iff]
    intro q hq
    obtain ⟨a, b⟩ := q
    have hd := (List.of_mem_zip hq).1
    simp only [decide_eq_true_eq]
    exact not_le.mpr (h a hd)
  simp only [energy_use]
  rw [if_pos hrel]

/-- Witness for C5: target depth `-1` below the grid `[0, 1]` makes the
integrator fail (modelled `none`) instead of returning zero energy. -/
theorem C5_empty_range_fails_witness : energy_use [0, 1] [1, 1] (-1) = none :=
  C5_empty_range_fails [0, 1] [1, 1] (-1) (by norm_num)

/-! ### Claim theorems for the force model -/

/-- C1: for every submerged depth, lung condition and parameter record, the
net force equals the claim's formula — `(buoyant - weight) / 9.81` with the
displaced volume the cm^3 sum (converted by `1e-6`) of the compressed lung,
fat, lean and wetsuit volumes, the snorkel/mask volume, and the lead
displacement `lead_weight / 11340` m^3 scaled by `1e6`. -/
theorem C1_force_model_formula (p : Params) (c : LungCondition) (rho d : ℚ)
    (hd : 0 ≤ d) :
    net_force_kgf p rho (p.lung_volumes c) d = net_force_spec p rho (p.lung_volumes c) d := by
  rw [net_force_kgf, if_neg (not_lt.mpr hd)]
  simp only [net_force_spec, F_buoyancy, F_weight, total_displacement_volume,
    lung_volume_at_depth]
  ring

/-- Witness for C1 at the reference parameters, full lung, resolved sea
density `5107/5` kg/m^3, depth 0. -/
theorem C1_force_model_formula_witness :
    net_force_kgf example_params (5107 / 5) (example_params.lung_volumes LungCondition.full_lung) 0
      = net_force_spec example_params (5107 / 5)
          (example_params.lung_volumes LungCondition.full_lung) 0 :=
  C1_force_model_formula example_params LungCondition.full_lung (5107 / 5) 0 le_rfl

/-- C7: above the surface (`d < 0`) the net force is
`-(body mass + wetsuit mass)` for every lead weight — the lead weight does
not contribute to this branch — while the weight force of the submerged
branch does include the lead weight. -/
theorem C7_above_surface (p : Params) (c : LungCondition) (rho d : ℚ) (hd : d < 0) :
    net_force_kgf p rho (p.lung_volumes c) d = -(p.mass + p.wetsuit_mass)
    ∧ (∀ w : ℚ, net_force_kgf { p with lead_weight := w } rho (p.lung_volumes c) d
        = -(p.mass + p.wetsuit_mass))
    ∧ ∀ w : ℚ, F_weight { p with lead_weight := w } = (p.mass + p.wetsuit_mass + w) * 9.81 := by
  refine ⟨?_, fun w => ?_, fun w => ?_⟩
  · rw [net_force_kgf, if_pos hd]; ring
  · rw [net_force_kgf, if_pos hd]; ring
  · rw [F_weight]

/-- Witness for C7 at the reference parameters, depth `-1`. -/
theorem C7_above_surface_witness :
    net_force_kgf example_params 0 (example_params.lung_volumes LungCondition.full_lung) (-1)
      = -(example_params.mass + example_params.wetsuit_mass) :=
  (C7_above_surface example_params LungCondition.full_lung 0 (-1) (by norm_num)).1

/-- C9: the density model returns
`(1.000 + 0.0008 * salinity - 0.0003 * temperature) * 1000` kg/m^3, where
the water type resolves to salinity 35 for "sea" and 0 for anything else;
it is a total function (no failure modes). -/
theorem C9_density_model (w : String) (t : ℚ) :
    get_salinity_and_density w t
      = (1.000 + 0.0008 * (if w = "sea" then 35 else 0) - 0.0003 * t) * 1000 := rfl

/-- C10: at any submerged depth, with the resolved seawater density below
the lead density 11340 kg/m^3, the net force is strictly decreasing in the
lead weight. -/
theorem C10_lead_monotone (p : Params) (c : LungCondition) (d w1 w2 : ℚ)
    (hd : 0 ≤ d)
    (hrho : get_salinity_and_density p.water_type p.temperature < 11340)
    (hw : w1 < w2) :
    net_force_kgf { p with lead_weight := w2 }
        (get_salinity_and_density p.water_type p.temperature) (p.lung_volumes c) d
      < net_force_kgf { p with lead_weight := w1 }
        (get_salinity_and_density p.water_type p.temperature) (p.lung_volumes c) d := by
  set rho := get_salinity_and_density p.water_type p.temperature with hr
  have key : ∀ w : ℚ, net_force_kgf { p with lead_weight := w } rho (p.lung_volumes c) d
      = net_force_kgf { p with lead_weight := 0 } rho (p.lung_volumes c) d
        + w * (rho / 11340 - 1) := by
    intro w
    rw [net_force_kgf, net_force_kgf, if_neg (not_lt.mpr hd), if_neg (not_lt.mpr hd)]
    simp only [F_buoyancy, F_weight, total_displacement_volume, lung_volume_at_depth]
    ring
  rw [key w1, key w2]
  have h1 : rho / 11340 - 1 < 0 := by
    have : rho / 11340 < 1 := (div_lt_one (by norm_num)).mpr hrho
    linarith
  have h2 := mul_lt_mul_of_neg_right hw h1
  linarith

/-- Witness for C10 at the reference parameters (sea water at 22 °C
resolves to 1021.4 kg/m^3 < 11340), depth 10, lead weights 0 < 1. -/
theorem C10_lead_monotone_witness :
    net_force_kgf { example_params with lead_weight := 1 }
        (get_salinity_and_density example_params.water_type example_params.temperature)
        (example_params.lung_volumes LungCondition.full_lung) 10
      < net_force_kgf { example_params with lead_weight := 0 }
        (get_salinity_and_density example_params.water_type example_params.temperature)
        (example_params.lung_volumes LungCondition.full_lung) 10 :=
  C10_lead_monotone example_params LungCondition.full_lung 10 0 1 (by norm_num)
    (by norm_num [example_params, get_salinity_and_density, calculate_seawater_density])
    (by norm_num)

/-! ### Claim theorems for the force profile generator -/

/-- C8 counterexample: invoking the generator at the reference parameters
does not leave the caller's record unchanged — the `seawater_density` entry
is written into it. -/
theorem C8_counterexample : (plot_net_force_kgf example_params).1 ≠ example_params := by
  intro h
  have h2 := congrArg Params.seawater_density h
  simp [plot_net_force_kgf, example_params] at h2

/-- C8 (amended): invoking the generator returns the caller's record with
exactly the `seawater_density` field overwritten by the resolved density;
every other field is unchanged. -/
theorem C8_generator_frame (p : Params) :
    (plot_net_force_kgf p).1
      = { p with
          seawater_density := some (get_salinity_and_density p.water_type p.temperature) }
    ∧ (plot_net_force_kgf p).1.mass = p.mass
    ∧ (plot_net_force_kgf p).1.body_fat_percentage = p.body_fat_percentage
    ∧ (plot_net_force_kgf p).1.lung_volumes = p.lung_volumes
    ∧ (plot_net_force_kgf p).1.residual_volume = p.residual_volume
    ∧ (plot_net_force_kgf p).1.wetsuit_mass = p.wetsuit_mass
    ∧ (plot_net_force_kgf p).1.wetsuit_density = p.wetsuit_density
    ∧ (plot_net_force_kgf p).1.snorkel_mask_volume = p.snorkel_mask_volume
    ∧ (plot_net_force_kgf p).1.lead_weight = p.lead_weight
    ∧ (plot_net_force_kgf p).1.water_type = p.water_type
    ∧ (plot_net_force_kgf p).1.temperature = p.temperature
    ∧ (plot_net_force_kgf p).1.wetsuit_compressibility_factor
        = p.wetsuit_compressibility_factor
    ∧ (plot_net_force_kgf p).1.x_limits = p.x_limits
    ∧ (plot_net_force_kgf p).1.y_limits = p.y_limits :=
  ⟨rfl, rfl, rfl, rfl, rfl, rfl, rfl, rfl, rfl, rfl, rfl, rfl, rfl, rfl⟩

/-! ### Claim theorems for the weight optimizer and depth sweep -/

/-- C4: the optimum selection follows the source's rule — boundary minima
are reported directly; an interior minimum is refined through the exact
quadratic through the minimum and its two neighbours, reporting the vertex
`-b / (2a)` and the polynomial value there; and on weights `[1, 2, 3]` with
energies `[4, 1, 4]` it recovers exactly `(2, 1)`. -/
theorem C4_weight_optimizer_selection (ws es : List ℚ)
    (h0 : argmin es ≠ 0) (hl : argmin es ≠ ws.length - 1)
    (h12 : ws.getD (argmin es - 1) 0 ≠ ws.getD (argmin es) 0)
    (h13 : ws.getD (argmin es - 1) 0 ≠ ws.getD (argmin es + 1) 0)
    (h23 : ws.getD (argmin es) 0 ≠ ws.getD (argmin es + 1) 0) :
    (∃ a b c : ℚ,
      a * ws.getD (argmin es - 1) 0 ^ 2 + b * ws.getD (argmin es - 1) 0 + c
          = es.getD (argmin es - 1) 0
      ∧ a * ws.getD (argmin es) 0 ^ 2 + b * ws.getD (argmin es) 0 + c
          = es.getD (argmin es) 0
      ∧ a * ws.getD (argmin es + 1) 0 ^ 2 + b * ws.getD (argmin es + 1) 0 + c
          = es.getD (argmin es + 1) 0
      ∧ select_optimum ws es
          = (-b / (2 * a), a * (-b / (2 * a)) ^ 2 + b * (-b / (2 * a)) + c))
    ∧ (∀ ws2 es2 : List ℚ, (argmin es2 = 0 ∨ argmin es2 = ws2.length - 1) →
        select_optimum ws2 es2 = (ws2.getD (argmin es2) 0, es2.getD (argmin es2) 0))
    ∧ select_optimum [1, 2, 3] [4, 1, 4] = (2, 1) := by
  have hden : (ws.getD (argmin es - 1) 0 - ws.getD (argmin es) 0)
      * (ws.getD (argmin es - 1) 0 - ws.getD (argmin es + 1) 0)
      * (ws.getD (argmin es) 0 - ws.getD (argmin es + 1) 0) ≠ 0 :=
    mul_ne_zero (mul_ne_zero (sub_ne_zero.mpr h12) (sub_ne_zero.mpr h13))
      (sub_ne_zero.mpr h23)
  have hne12 : ws.getD (argmin es - 1) 0 - ws.getD (argmin es) 0 ≠ 0 := sub_ne_zero.mpr h12
  have hne13 : ws.getD (argmin es - 1) 0 - ws.getD (argmin es + 1) 0 ≠ 0 := sub_ne_zero.mpr h13
  have hne23 : ws.getD (argmin es) 0 - ws.getD (argmin es + 1) 0 ≠ 0 := sub_ne_zero.mpr h23
  refine ⟨⟨quad_a (ws.getD (argmin es - 1) 0) (ws.getD (argmin es) 0)
      (ws.getD (argmin es + 1) 0) (es.getD (argmin es - 1) 0) (es.getD (argmin es) 0)
      (es.getD (argmin es + 1) 0),
    quad_b (ws.getD (argmin es - 1) 0) (ws.getD (argmin es) 0) (ws.getD (argmin es + 1) 0)
      (es.getD (argmin es - 1) 0) (es.getD (argmin es) 0) (es.getD (argmin es + 1) 0),
    quad_c (ws.getD (argmin es - 1) 0) (ws.getD (argmin es) 0) (ws.getD (argmin es + 1) 0)
      (es.getD (argmin es - 1) 0) (es.getD (argmin es) 0) (es.getD (argmin es + 1) 0),
    ?_, ?_, ?_, ?_⟩, fun ws2 es2 hb => ?_, ?_⟩
  · exact (quad_fit_interpolates _ _ _ _ _ _ h12 h13 h23).1
  · exact (quad_fit_interpolates _ _ _ _ _ _ h12 h13 h23).2.1
  · exact (quad_fit_interpolates _ _ _ _ _ _ h12 h13 h23).2.2
  · simp only [select_optimum]
    rw [if_neg (by push_neg; exact ⟨h0, hl⟩)]
  · simp only [select_optimum]
    rw [if_pos hb]
  · norm_num [select_optimum, argmin, argmin_go, quad_a, quad_b, quad_c]

/-- Witness for C4: the interior case at weights `[1, 2, 3]`, energies
`[4, 1, 4]` (minimum index 1), recovering the exact vertex `(2, 1)`. -/
theorem C4_weight_optimizer_selection_witness :
    select_optimum [1, 2, 3] [4, 1, 4] = (2, 1) :=
  (C4_weight_optimizer_selection [1, 2, 3] [4, 1, 4] (by decide) (by decide)
    (by norm_num [argmin, argmin_go]) (by norm_num [argmin, argmin_go])
    (by norm_num [argmin, argmin_go])).2.2

/-- C6 counterexample: for `max_depth = 1` the swept grid
`np.arange(1, 2, 0.5)` contains the depth 1.5, which exceeds `max_depth` —
refuting "no depth exceeding max_depth". -/
theorem C6_counterexample : (3 / 2 : ℚ) ∈ depth_grid 1 ∧ (1 : ℚ) < 3 / 2 := by
  constructor
  · have h : depth_grid 1 = [1, 3 / 2] := by
      have hq : ((1 : ℚ) + 1 - 1) / 0.5 = 2 := by norm_num
      rw [depth_grid, arange, hq]
      have h2 : (Int.ceil ((2 : ℚ))).toNat = 2 := by
        have h3 : Int.ceil ((2 : ℚ)) = 2 := by exact_mod_cast Int.ceil_intCast (α := ℚ) 2
        rw [h3]; rfl
      rw [h2]
      norm_num [List.range_succ]
    rw [h]
    simp
  · norm_num

/-- C6 (amended): the Depth Sweep Driver sweeps
`np.arange(1, max_depth + 1, 0.5)` — depths from 1 in steps of 0.5 up to
and including `max_depth + 0.5` (so the deepest swept depth exceeds
`max_depth`), `2 * max_depth` of them for an integer `max_depth ≥ 1` — and
each lung condition's optimal-weight sequence has length equal to the
number of depths swept. -/
theorem C6_depth_sweep_amended (p : Params) (c : LungCondition) (n : ℕ) (hn : 1 ≤ n) :
    (depth_grid n).length = 2 * n
    ∧ (∀ d ∈ depth_grid n, 1 ≤ d ∧ d ≤ n + 1 / 2)
    ∧ (depth_grid n).getLastD 0 = n + 1 / 2
    ∧ (optimal_weight_vs_depth p n c).length = (depth_grid n).length := by
  have hK : (Int.ceil (((n : ℚ) + 1 - 1) / 0.5)).toNat = 2 * n := by
    have hq : ((n : ℚ) + 1 - 1) / 0.5 = ((2 * n : ℕ) : ℚ) := by push_cast; ring
    rw [hq, Int.ceil_natCast, Int.toNat_natCast]
  have hgrid : depth_grid n = (List.range (2 * n)).map fun i : ℕ => 1 + 0.5 * (i : ℚ) := by
    rw [depth_grid, arange, hK]
  refine ⟨?_, ?_, ?_, ?_⟩
  · rw [hgrid, List.length_map, List.length_range]
  · intro d hd
    rw [hgrid] at hd
    obtain ⟨i, hi, rfl⟩ := List.mem_map.mp hd
    rw [List.mem_range] at hi
    have h0 : (0 : ℚ) ≤ i := Nat.cast_nonneg i
    have hi' : (i : ℚ) ≤ 2 * n - 1 := by
      have h1 : (i : ℚ) + 1 ≤ 2 * n := by exact_mod_cast hi
      linarith
    exact ⟨by linarith, by linarith⟩
  · obtain ⟨K, hK2⟩ : ∃ K, 2 * n = K + 1 := ⟨2 * n - 1, by omega⟩
    have hKq : (K : ℚ) + 1 = 2 * (n : ℚ) := by exact_mod_cast hK2.symm
    rw [hgrid, hK2, List.range_succ, List.map_append]
    simp only [List.map_cons, List.map_nil]
    rw [List.getLastD_concat]
    have hKq2 : (K : ℚ) = 2 * n - 1 := by linarith
    rw [hKq2]
    ring
  · rw [optimal_weight_vs_depth, List.length_map]

/-- Witness for C6 (amended) at `max_depth = 1`, reference parameters,
full lung. -/
theorem C6_depth_sweep_amended_witness :
    (depth_grid (1 : ℕ)).length = 2 * 1
    ∧ (optimal_weight_vs_depth example_params (1 : ℕ) LungCondition.full_lung).length
        = (depth_grid (1 : ℕ)).length :=
  ⟨(C6_depth_sweep_amended example_params LungCondition.full_lung 1 le_rfl).1,
   (C6_depth_sweep_amended example_params LungCondition.full_lung 1 le_rfl).2.2.2⟩

end Freediving
